import Mathlib

/-!
Verification of the escalating-reminder core of `medicynbot.py`.

The Python program is shallowly embedded: the recipient registry
(`get_cynthia_chat_id`), the composite job key (`nag_job_name`), the
cancellation routine (`stop_nagging`), the daily medicine trigger
(`send_medicine_reminder`), the repeating nag callback (`nag_medicine`)
and the confirmation button handler (`taken_button`) become pure Lean
functions over an explicit bot state.  The telegram `JobQueue` is
embedded as a list of job records; `run_repeating` adds a record and a
separate `fire_repeating` step models the queue running a due repeating
job (callback first, then rearm one interval later unless the callback
removed the job).
-/

namespace Medicynbot

/-- Fixed nag repeat interval, in minutes (`NAG_EVERY = timedelta(minutes=30)`). -/
def NAG_EVERY : Nat := 30

/-- A wall-clock instant as the program consumes it: an absolute minute count
together with the calendar-date string the fixed timezone assigns to it
(`datetime.now(TZ)`; the two components stand for the one Python value). -/
structure Datetime where
  minutes : Nat
  dk : String
deriving Repr, DecidableEq

/-- `today_key(now)`: the occurrence-day string of an instant
(`now.astimezone(TZ).strftime("%Y-%m-%d")`). -/
def today_key (now : Datetime) : String := now.dk

/-- One scheduled job of the job queue: its name (the composite key string),
the `data` payload (`slot`, `date_key`), its repeat interval and next fire
time (`run_repeating(interval=..., first=...)`). -/
structure Job where
  name : String
  slot : String
  date_key : String
  interval : Nat
  nextFire : Nat
deriving Repr, DecidableEq

/-- A message handed to the notifier: target chat id and the
`callback_data` of the attached confirm button, when any. -/
structure SentMsg where
  chatId : Int
  callbackData : Option String
deriving Repr, DecidableEq

/-- The shared mutable state of the bot process: the `CYNTHIA_CHAT_ID`
environment value, the runtime `bot_data["cynthia_chat_id"]` value, the
live job queue, and the trace of messages sent so far. -/
structure BotState where
  cynthiaEnv : Option String
  botData : Option Int
  jobs : List Job
  sent : List SentMsg
deriving Repr, DecidableEq

/-- `c` is an ASCII decimal digit, the case of Python `str.isdigit` relevant
to a chat-id string. -/
def isDigitChar (c : Char) : Bool :=
  48 ≤ c.toNat && c.toNat ≤ 57

/-- Python `v and v.isdigit()`: the string is nonempty and all digits. -/
def str_isdigit (s : String) : Bool :=
  !s.data.isEmpty && s.data.all isDigitChar

/-- Python `int(s)` on a decimal digit string. -/
def str_to_int (s : String) : Int :=
  Int.ofNat (s.data.foldl (fun n c => 10 * n + (c.toNat - 48)) 0)

/-- `get_cynthia_chat_id`: environment variable first (used only when it is a
nonempty digit string, the Python `env and env.isdigit()` guard), else the
in-memory runtime value, else unresolved. -/
def get_cynthia_chat_id (envVal : Option String) (botData : Option Int) : Option Int :=
  match envVal with
  | some s => if str_isdigit s then some (str_to_int s) else botData
  | none => botData

/-- The resolved recipient of a bot state. -/
def resolved (st : BotState) : Option Int :=
  get_cynthia_chat_id st.cynthiaEnv st.botData

/-- `set_cynthia_chat_id_runtime`: store the runtime value. -/
def set_cynthia_chat_id_runtime (st : BotState) (chatId : Int) : BotState :=
  { st with botData := some chatId }

/-- `nag_job_name(chat_id, slot, date_key) = f"nag:{chat_id}:{slot}:{date_key}"`. -/
def nag_job_name (chatId : Int) (slot : String) (date_key : String) : String :=
  "nag:" ++ toString chatId ++ ":" ++ slot ++ ":" ++ date_key

/-- `job_queue.get_jobs_by_name(n)`: all jobs whose name is `n`. -/
def get_jobs_by_name (q : List Job) (n : String) : List Job :=
  q.filter (fun j => j.name == n)

/-- The loop `for j in get_jobs_by_name(n): j.schedule_removal()`: every job
instance returned by the name lookup is removed from the queue, so the
queue keeps exactly the jobs whose name differs from `n`. -/
def remove_jobs_named (q : List Job) (n : String) : List Job :=
  q.filter (fun j => j.name != n)

/-- `stop_nagging(job_queue, chat_id, slot, date_key)`: look up the jobs under
the composite key, schedule each for removal, and report how many were
found.  Returns the queue after removal together with the count. -/
def stop_nagging (q : List Job) (chatId : Int) (slot : String) (date_key : String) :
    List Job × Nat :=
  let jobs := get_jobs_by_name q (nag_job_name chatId slot date_key)
  (remove_jobs_named q (nag_job_name chatId slot date_key), jobs.length)

/-- The confirm-button payload `f"taken:{slot}:{date_key}"`. -/
def taken_callback_data (slot : String) (date_key : String) : String :=
  "taken:" ++ slot ++ ":" ++ date_key

/-- `send_medicine_reminder` (the daily 11:00 / 18:00 trigger callback): the
Python guard `if not chat_id` skips when no recipient resolves — and also
when the resolved chat id is the falsy `0`; otherwise clear any existing
nag job under the same composite key, send the initial reminder with its
confirm button, and start the repeating nag loop (`interval=NAG_EVERY`,
`first=now+NAG_EVERY`). -/
def send_medicine_reminder (st : BotState) (slot : String) (now : Datetime) : BotState :=
  match resolved st with
  | none => st
  | some chatId =>
    if chatId == 0 then st
    else
      let date_key := today_key now
      let name := nag_job_name chatId slot date_key
      let cleared := remove_jobs_named st.jobs name
      let newJob : Job :=
        { name := name, slot := slot, date_key := date_key,
          interval := NAG_EVERY, nextFire := now.minutes + NAG_EVERY }
      { st with
        jobs := cleared ++ [newJob],
        sent := st.sent ++ [{ chatId := chatId,
                              callbackData := some (taken_callback_data slot date_key) }] }

/-- `nag_medicine` (the repeating job callback): under the Python guard
`if not chat_id` — no recipient resolved, or the falsy chat id `0` — the
job removes itself (`context.job.schedule_removal()`) and sends nothing;
otherwise it sends the follow-up nag, with its confirm button, to the
recipient resolved now. -/
def nag_medicine (st : BotState) (j : Job) : BotState :=
  match resolved st with
  | none => { st with jobs := st.jobs.erase j }
  | some chatId =>
    if chatId == 0 then { st with jobs := st.jobs.erase j }
    else
      { st with
        sent := st.sent ++ [{ chatId := chatId,
                              callbackData := some (taken_callback_data j.slot j.date_key) }] }

/-- What the job queue does when a repeating job comes due: run its callback,
then — unless the callback removed the job — reschedule the job one
interval later.  `run_repeating` is called with no run-count bound, so a
surviving job is always rearmed. -/
def fire_repeating (st : BotState) (j : Job) : BotState :=
  let st1 := nag_medicine st j
  if j ∈ st1.jobs then
    { st1 with
      jobs := st1.jobs.map (fun x =>
        if x == j then { x with nextFire := x.nextFire + x.interval } else x) }
  else st1

/-- A job as it stands after its queue entry has been rearmed once. -/
def rearm (j : Job) : Job := { j with nextFire := j.nextFire + j.interval }

/-- `n` successive due firings of one repeating job: fire, then continue with
the rearmed job record. -/
def run_nags (st : BotState) (j : Job) : Nat → BotState
  | 0 => st
  | n + 1 => run_nags (fire_repeating st j) (rearm j) n

/-- The replies `taken_button` can produce, one constructor per exit path of
the handler. -/
inductive Reply where
  | notLinked
  | buttonDataError
  | onlyCynthia
  | confirmed (label : String) (removedZero : Bool)
deriving Repr, DecidableEq

/-- Python `str.split` with a one-character separator, over the character
list: splitting an empty string gives one empty field, a separator opens a
new field, any other character extends the current first field. -/
def splitChar (sep : Char) : List Char → List (List Char)
  | [] => [[]]
  | c :: cs =>
    let r := splitChar sep cs
    if c == sep then [] :: r
    else
      match r with
      | [] => [[c]]
      | h :: t => (c :: h) :: t

/-- `query.data.split(":")`. -/
def split_colon (s : String) : List String :=
  (splitChar ':' s.data).map String.mk

/-- The slot label used in the confirmation acknowledgement
(`"Morning" if slot == "morning" else "Evening"`). -/
def slot_label (slot : String) : String :=
  if slot == "morning" then "Morning" else "Evening"

/-- `taken_button` (the ✅ callback handler): reject as not linked under the
Python guard `if not cynthia_id` — no recipient resolved, or the falsy
chat id `0`; reject a payload that does not split on `:` into exactly
three fields; reject a press from any chat other than the resolved
recipient; otherwise stop the nagging under the exact
(recipient, slot, day) key and always acknowledge, noting when no timer
was actually removed. -/
def taken_button (st : BotState) (queryData : String) (messageChatId : Int) :
    BotState × Reply :=
  match resolved st with
  | none => (st, Reply.notLinked)
  | some cynthiaId =>
    if cynthiaId == 0 then (st, Reply.notLinked)
    else
      match split_colon queryData with
      | [_, slot, date_key] =>
        if messageChatId != cynthiaId then
          (st, Reply.onlyCynthia)
        else
          let r := stop_nagging st.jobs cynthiaId slot date_key
          ({ st with jobs := r.1 }, Reply.confirmed (slot_label slot) (r.2 == 0))
      | _ => (st, Reply.buttonDataError)

/-- Number of active jobs under a composite key. -/
def activeCount (st : BotState) (n : String) : Nat :=
  (get_jobs_by_name st.jobs n).length

/-- The two-tier resolver exactly as the spec words it: the durable override
tier holds a RecipientIdentity when the environment value parses as one
(a non-identity value leaves the tier empty); resolution returns the
durable tier when present, else the runtime tier, else unset. -/
def resolve_spec (envVal : Option String) (botData : Option Int) : Option Int :=
  let durable : Option Int :=
    envVal.bind (fun s => if str_isdigit s then some (str_to_int s) else none)
  match durable with
  | some n => some n
  | none => botData

section Lemmas

/-- `send_medicine_reminder` touches jobs and messages only, so the resolved
recipient is unchanged by it. -/
theorem resolved_send_medicine_reminder (st : BotState) (slot : String) (now : Datetime) :
    resolved (send_medicine_reminder st slot now) = resolved st := by
  unfold send_medicine_reminder
  cases h : resolved st with
  | none => exact h
  | some cid =>
    cases hc : cid == 0 with
    | true => simp only [hc, if_true]; exact h
    | false => simp only [hc, Bool.false_eq_true, if_false]; simpa [resolved] using h

/-- Looking a key up after removing it finds nothing. -/
theorem get_jobs_removed (q : List Job) (n : String) :
    get_jobs_by_name (remove_jobs_named q n) n = [] := by
  unfold get_jobs_by_name remove_jobs_named
  rw [List.filter_filter]
  apply List.filter_eq_nil_iff.2
  intro j _
  cases hj : j.name == n <;> simp [bne, hj]

/-- Removing a key from the queue keeps exactly the jobs with other names. -/
theorem mem_remove_jobs_named (q : List Job) (n : String) (k : Job) :
    k ∈ remove_jobs_named q n ↔ k ∈ q ∧ k.name ≠ n := by
  unfold remove_jobs_named
  simp [List.mem_filter]

/-- Name lookup distributes over queue concatenation. -/
theorem get_jobs_append (a b : List Job) (n : String) :
    get_jobs_by_name (a ++ b) n = get_jobs_by_name a n ++ get_jobs_by_name b n := by
  unfold get_jobs_by_name
  exact List.filter_append a b

/-- After one `start`, exactly one job is active under the target key. -/
theorem activeCount_send (st : BotState) (slot : String) (now : Datetime) (cid : Int)
    (h : resolved st = some cid) (hcid : cid ≠ 0) :
    activeCount (send_medicine_reminder st slot now)
      (nag_job_name cid slot (today_key now)) = 1 := by
  unfold activeCount send_medicine_reminder
  rw [h]
  have hcb : (cid == 0) = false := by simpa using hcid
  simp only [hcb, Bool.false_eq_true, if_false]
  show (get_jobs_by_name
      (remove_jobs_named st.jobs (nag_job_name cid slot (today_key now)) ++
        [{ name := nag_job_name cid slot (today_key now), slot := slot,
           date_key := today_key now, interval := NAG_EVERY,
           nextFire := now.minutes + NAG_EVERY }])
      (nag_job_name cid slot (today_key now))).length = 1
  rw [get_jobs_append, get_jobs_removed]
  simp [get_jobs_by_name]

/-- Appending to a string is left-cancellative. -/
theorem string_append_cancel_left (s t1 t2 : String) (h : s ++ t1 = s ++ t2) : t1 = t2 := by
  have h2 := congrArg String.data h
  rw [String.data_append, String.data_append] at h2
  exact String.ext (List.append_cancel_left h2)

/-- Two composite keys with the same recipient and slot but different
occurrence days are different strings. -/
theorem nag_job_name_day_inj (cid : Int) (slot d1 d2 : String)
    (h : nag_job_name cid slot d1 = nag_job_name cid slot d2) : d1 = d2 := by
  unfold nag_job_name at h
  exact string_append_cancel_left _ _ _ h

/-- Cancelling a key that no job carries finds nothing and removes nothing. -/
theorem stop_nagging_no_match (q : List Job) (cid : Int) (slot d : String)
    (hnone : ∀ j ∈ q, j.name ≠ nag_job_name cid slot d) :
    stop_nagging q cid slot d = (q, 0) := by
  unfold stop_nagging get_jobs_by_name remove_jobs_named
  have h1 : q.filter (fun j => j.name == nag_job_name cid slot d) = [] := by
    apply List.filter_eq_nil_iff.2
    intro j hj
    simpa using hnone j hj
  have h2 : q.filter (fun j => j.name != nag_job_name cid slot d) = q := by
    apply List.filter_eq_self.2
    intro j hj
    simpa [bne] using hnone j hj
  simp [h1, h2]

/-- One due firing with a resolved recipient and a single-job queue: the nag
goes to the resolved recipient and the job is rearmed one interval later. -/
theorem fire_repeating_step (e : Option String) (b : Option Int) (cid : Int)
    (j : Job) (s : List SentMsg)
    (h : get_cynthia_chat_id e b = some cid) (hcid : cid ≠ 0) :
    fire_repeating ⟨e, b, [j], s⟩ j =
      ⟨e, b, [rearm j],
       s ++ [⟨cid, some (taken_callback_data j.slot j.date_key)⟩]⟩ := by
  have hcb : (cid == 0) = false := by simpa using hcid
  unfold fire_repeating nag_medicine
  simp [resolved, h, hcb, rearm]

/-- Closed form of `n` due firings of one live repeating job under a stable
resolved recipient: the job stays in the queue with its next fire time
advanced by `n` intervals, and each firing appended exactly one nag. -/
theorem run_nags_closed (e : Option String) (b : Option Int) (cid : Int)
    (h : get_cynthia_chat_id e b = some cid) (hcid : cid ≠ 0) :
    ∀ (n : Nat) (j : Job) (s : List SentMsg),
      run_nags ⟨e, b, [j], s⟩ j n =
        ⟨e, b, [{ j with nextFire := j.nextFire + n * j.interval }],
         s ++ List.replicate n ⟨cid, some (taken_callback_data j.slot j.date_key)⟩⟩ := by
  intro n
  induction n with
  | zero => intro j s; simp [run_nags]
  | succ n ih =>
    intro j s
    show run_nags (fire_repeating ⟨e, b, [j], s⟩ j) (rearm j) n = _
    rw [fire_repeating_step e b cid j s h hcid]
    have h2 := ih (rearm j) (s ++ [⟨cid, some (taken_callback_data j.slot j.date_key)⟩])
    simp only [rearm] at h2
    simp only [rearm]
    rw [h2]
    simp [List.replicate_succ, List.append_assoc, Nat.succ_mul]
    ring

end Lemmas

section Claims

/-- C1: at most one active escalation job exists per composite key.  With a
linked (truthy, nonzero) resolved recipient, when the medicine trigger
fires, any pre-existing job under the same exact key is removed before the
new repeating job is created, so after a `start` exactly one job is active
under the key — and two successive `start`s for the same key also leave
exactly one active job, no duplicate nag streams. -/
theorem start_at_most_one_job_per_key (st : BotState) (slot : String) (now : Datetime)
    (cid : Int) (h : resolved st = some cid) (hcid : cid ≠ 0) :
    activeCount (send_medicine_reminder st slot now)
      (nag_job_name cid slot (today_key now)) = 1 ∧
    activeCount (send_medicine_reminder (send_medicine_reminder st slot now) slot now)
      (nag_job_name cid slot (today_key now)) = 1 := by
  refine ⟨activeCount_send st slot now cid h hcid, ?_⟩
  exact activeCount_send _ slot now cid
    ((resolved_send_medicine_reminder st slot now).trans h) hcid

theorem start_at_most_one_job_per_key_witness :
    activeCount (send_medicine_reminder ⟨some "7", none, [], []⟩ "morning" ⟨660, "2024-01-01"⟩)
      (nag_job_name 7 "morning" "2024-01-01") = 1 ∧
    activeCount
      (send_medicine_reminder
        (send_medicine_reminder ⟨some "7", none, [], []⟩ "morning" ⟨660, "2024-01-01"⟩)
        "morning" ⟨660, "2024-01-01"⟩)
      (nag_job_name 7 "morning" "2024-01-01") = 1 :=
  start_at_most_one_job_per_key ⟨some "7", none, [], []⟩ "morning" ⟨660, "2024-01-01"⟩ 7
    (by decide) (by decide)

/-- C2: cancellation is exact-key scoped.  `stop_nagging` keeps a job in the
queue exactly when its name differs from the cancelled composite key, and a
job keyed to one occurrence day is never removed by a cancellation carrying
a different day, even with the same slot and recipient. -/
theorem cancel_exact_key_scope (q : List Job) (cid : Int) (slot d dOther : String) (j : Job) :
    (∀ k : Job, k ∈ (stop_nagging q cid slot d).1 ↔
      k ∈ q ∧ k.name ≠ nag_job_name cid slot d) ∧
    (dOther ≠ d → j ∈ q → j.name = nag_job_name cid slot dOther →
      j ∈ (stop_nagging q cid slot d).1) := by
  constructor
  · intro k
    exact mem_remove_jobs_named q _ k
  · intro hne hj hname
    refine (mem_remove_jobs_named q _ j).2 ⟨hj, ?_⟩
    rw [hname]
    intro hcontra
    exact hne (nag_job_name_day_inj cid slot dOther d hcontra)

theorem cancel_exact_key_scope_witness :
    (⟨nag_job_name 7 "morning" "2024-01-01", "morning", "2024-01-01", 30, 690⟩ : Job) ∈
      (stop_nagging
        [⟨nag_job_name 7 "morning" "2024-01-01", "morning", "2024-01-01", 30, 690⟩]
        7 "morning" "2024-01-02").1 :=
  (cancel_exact_key_scope
      [⟨nag_job_name 7 "morning" "2024-01-01", "morning", "2024-01-01", 30, 690⟩]
      7 "morning" "2024-01-02" "2024-01-01"
      ⟨nag_job_name 7 "morning" "2024-01-01", "morning", "2024-01-01", 30, 690⟩).2
    (by decide) (by simp) rfl

/-- C3: a confirmation arriving from a chat other than the currently resolved
(linked, nonzero) recipient never changes the state, regardless of the
slot and day it carries: the handler answers with the Unauthorized-style
reply and cancels nothing. -/
theorem unauthorized_press_no_change (st : BotState) (qd : String) (mcid cid : Int)
    (a slot d : String)
    (hres : resolved st = some cid)
    (hcid : cid ≠ 0)
    (hparse : split_colon qd = [a, slot, d])
    (hne : mcid ≠ cid) :
    taken_button st qd mcid = (st, Reply.onlyCynthia) := by
  have hcb : (cid == 0) = false := by simpa using hcid
  unfold taken_button
  rw [hres]
  simp only [hcb, Bool.false_eq_true, if_false]
  rw [hparse]
  simp [bne, hne]

theorem unauthorized_press_no_change_witness :
    taken_button
        ⟨none, some 42,
         [⟨nag_job_name 42 "morning" "2024-01-01", "morning", "2024-01-01", 30, 690⟩], []⟩
        "taken:morning:2024-01-01" 99 =
      (⟨none, some 42,
        [⟨nag_job_name 42 "morning" "2024-01-01", "morning", "2024-01-01", 30, 690⟩], []⟩,
       Reply.onlyCynthia) :=
  unauthorized_press_no_change
    ⟨none, some 42,
     [⟨nag_job_name 42 "morning" "2024-01-01", "morning", "2024-01-01", 30, 690⟩], []⟩
    "taken:morning:2024-01-01" 99 42 "taken" "morning" "2024-01-01"
    rfl (by decide) (by decide) (by decide)

/-- C4: recipient resolution is the fixed two-tier priority read: it agrees
with the resolver written from the spec's words (durable override tier when
the environment value holds an identity, else the runtime tier, else
unset); when the durable tier holds an identity that identity is returned,
and when it holds none the runtime tier is returned as is.  Being a plain
function of the two tiers, resolution mutates neither. -/
theorem resolution_two_tier_priority (envVal : Option String) (botData : Option Int) :
    get_cynthia_chat_id envVal botData = resolve_spec envVal botData ∧
    (∀ s, envVal = some s → str_isdigit s = true →
      get_cynthia_chat_id envVal botData = some (str_to_int s)) ∧
    (envVal.bind (fun s => if str_isdigit s then some (str_to_int s) else none) = none →
      get_cynthia_chat_id envVal botData = botData) := by
  refine ⟨?_, ?_, ?_⟩
  · cases envVal with
    | none => rfl
    | some s => cases h : str_isdigit s <;> simp [get_cynthia_chat_id, resolve_spec, h]
  · intro s hs hd
    subst hs
    simp [get_cynthia_chat_id, hd]
  · intro hnone
    cases envVal with
    | none => rfl
    | some s =>
      cases h : str_isdigit s with
      | false => simp [get_cynthia_chat_id, h]
      | true => simp [h] at hnone

theorem resolution_two_tier_priority_witness :
    get_cynthia_chat_id (some "12") (some 5) = some (str_to_int "12") ∧
    get_cynthia_chat_id (some "not a number") (some 5) = some 5 :=
  ⟨(resolution_two_tier_priority (some "12") (some 5)).2.1 "12" rfl (by decide),
   (resolution_two_tier_priority (some "not a number") (some 5)).2.2 (by decide)⟩

/-- C5: with a linked (truthy, nonzero) resolved recipient, `start` sends the
initial notification itself and creates the nag job
with repeat interval `NAG_EVERY` (30 minutes) and first firing one interval
after the trigger time; each due firing then sends one follow-up nag and
rearms the job one further interval later, for every `n`, so the loop is
unbounded until a cancellation removes the job. -/
theorem start_schedules_unbounded_nag_loop (e : Option String) (b : Option Int)
    (s0 : List SentMsg) (slot : String) (now : Datetime) (cid : Int)
    (h : get_cynthia_chat_id e b = some cid) (hcid : cid ≠ 0) :
    NAG_EVERY = 30 ∧
    send_medicine_reminder ⟨e, b, [], s0⟩ slot now =
      ⟨e, b,
       [⟨nag_job_name cid slot (today_key now), slot, today_key now, NAG_EVERY,
         now.minutes + NAG_EVERY⟩],
       s0 ++ [⟨cid, some (taken_callback_data slot (today_key now))⟩]⟩ ∧
    ∀ n : Nat,
      run_nags (send_medicine_reminder ⟨e, b, [], s0⟩ slot now)
          ⟨nag_job_name cid slot (today_key now), slot, today_key now, NAG_EVERY,
           now.minutes + NAG_EVERY⟩ n =
        ⟨e, b,
         [⟨nag_job_name cid slot (today_key now), slot, today_key now, NAG_EVERY,
           now.minutes + (n + 1) * NAG_EVERY⟩],
         (s0 ++ [⟨cid, some (taken_callback_data slot (today_key now))⟩]) ++
           List.replicate n ⟨cid, some (taken_callback_data slot (today_key now))⟩⟩ := by
  have hsend : send_medicine_reminder ⟨e, b, [], s0⟩ slot now =
      ⟨e, b,
       [⟨nag_job_name cid slot (today_key now), slot, today_key now, NAG_EVERY,
         now.minutes + NAG_EVERY⟩],
       s0 ++ [⟨cid, some (taken_callback_data slot (today_key now))⟩]⟩ := by
    unfold send_medicine_reminder
    have hres : resolved ⟨e, b, [], s0⟩ = some cid := h
    have hcb : (cid == 0) = false := by simpa using hcid
    rw [hres]
    simp only [hcb, Bool.false_eq_true, if_false]
    rfl
  refine ⟨rfl, hsend, ?_⟩
  intro n
  rw [hsend]
  have h2 := run_nags_closed e b cid h hcid n
    ⟨nag_job_name cid slot (today_key now), slot, today_key now, NAG_EVERY,
     now.minutes + NAG_EVERY⟩
    (s0 ++ [⟨cid, some (taken_callback_data slot (today_key now))⟩])
  rw [h2]
  simp [Nat.succ_mul]
  ring

theorem start_schedules_unbounded_nag_loop_witness :
    run_nags (send_medicine_reminder ⟨some "7", none, [], []⟩ "morning" ⟨660, "2024-01-01"⟩)
        ⟨nag_job_name 7 "morning" "2024-01-01", "morning", "2024-01-01", NAG_EVERY, 690⟩ 3 =
      ⟨some "7", none,
       [⟨nag_job_name 7 "morning" "2024-01-01", "morning", "2024-01-01", NAG_EVERY, 780⟩],
       ([] ++ [⟨7, some (taken_callback_data "morning" "2024-01-01")⟩]) ++
         List.replicate 3 ⟨7, some (taken_callback_data "morning" "2024-01-01")⟩⟩ :=
  (start_schedules_unbounded_nag_loop (some "7") none [] "morning" ⟨660, "2024-01-01"⟩ 7
    (by decide) (by decide)).2.2 3

/-- C6: a nag firing that finds no resolvable recipient sends nothing and
removes its own job; with the job present at most once in the queue, the
queue step therefore does not rearm it — the orphaned escalation becomes
cleanup instead of repeating. -/
theorem nag_unset_recipient_self_cancels (st : BotState) (j : Job)
    (h : resolved st = none) :
    (nag_medicine st j).sent = st.sent ∧
    (nag_medicine st j).jobs = st.jobs.erase j ∧
    (st.jobs.count j ≤ 1 →
      fire_repeating st j = { st with jobs := st.jobs.erase j }) := by
  have hcall : nag_medicine st j = { st with jobs := st.jobs.erase j } := by
    unfold nag_medicine
    rw [h]
  refine ⟨by rw [hcall], by rw [hcall], ?_⟩
  intro hcount
  have hnot : j ∉ st.jobs.erase j := by
    intro hmem
    have hpos : 0 < (st.jobs.erase j).count j := List.count_pos_iff.2 hmem
    rw [List.count_erase_self] at hpos
    omega
  unfold fire_repeating
  rw [hcall]
  simp [hnot]

theorem nag_unset_recipient_self_cancels_witness :
    fire_repeating
        ⟨none, none,
         [⟨nag_job_name 42 "morning" "2024-01-01", "morning", "2024-01-01", 30, 690⟩], []⟩
        ⟨nag_job_name 42 "morning" "2024-01-01", "morning", "2024-01-01", 30, 690⟩ =
      ⟨none, none,
       ([⟨nag_job_name 42 "morning" "2024-01-01", "morning", "2024-01-01", 30, 690⟩] :
         List Job).erase
         ⟨nag_job_name 42 "morning" "2024-01-01", "morning", "2024-01-01", 30, 690⟩, []⟩ :=
  (nag_unset_recipient_self_cancels
    ⟨none, none,
     [⟨nag_job_name 42 "morning" "2024-01-01", "morning", "2024-01-01", 30, 690⟩], []⟩
    ⟨nag_job_name 42 "morning" "2024-01-01", "morning", "2024-01-01", 30, 690⟩
    rfl).2.2 (by decide)

/-- C7: cancelling a key with no active job finds nothing, removes nothing,
changes no state and reports 0; and a well-formed confirmation from the
authorized chat of a linked (nonzero) recipient is always answered with
the acknowledgement reply — the removal count only drives its
informational flag, never a failure. -/
theorem cancel_missing_key_noop_and_always_ack (q : List Job) (cid : Int)
    (slot d : String) (st : BotState) (qd a : String)
    (hnone : ∀ j ∈ q, j.name ≠ nag_job_name cid slot d) :
    stop_nagging q cid slot d = (q, 0) ∧
    (cid ≠ 0 → resolved st = some cid → split_colon qd = [a, slot, d] →
      (taken_button st qd cid).2 =
        Reply.confirmed (slot_label slot)
          (activeCount st (nag_job_name cid slot d) == 0)) := by
  refine ⟨stop_nagging_no_match q cid slot d hnone, ?_⟩
  intro hcid hres hparse
  have hcb : (cid == 0) = false := by simpa using hcid
  unfold taken_button
  rw [hres]
  simp only [hcb, Bool.false_eq_true, if_false]
  rw [hparse]
  simp [stop_nagging, activeCount]

theorem cancel_missing_key_noop_and_always_ack_witness :
    stop_nagging [] 42 "morning" "2024-01-01" = ([], 0) ∧
    (taken_button ⟨none, some 42, [], []⟩ "taken:morning:2024-01-01" 42).2 =
      Reply.confirmed (slot_label "morning")
        (activeCount ⟨none, some 42, [], []⟩ (nag_job_name 42 "morning" "2024-01-01") == 0) :=
  ⟨(cancel_missing_key_noop_and_always_ack [] 42 "morning" "2024-01-01"
      ⟨none, some 42, [], []⟩ "taken:morning:2024-01-01" "taken" (by simp)).1,
   (cancel_missing_key_noop_and_always_ack [] 42 "morning" "2024-01-01"
      ⟨none, some 42, [], []⟩ "taken:morning:2024-01-01" "taken" (by simp)).2
     (by decide) rfl (by decide)⟩

/-- C8: a payload that does not split into exactly the three
(action, slot, day) fields never changes the state, and with a linked
(nonzero) resolved recipient it is answered with the malformed-input
reply; the handler is a total function of its inputs, so no payload can
crash it. -/
theorem malformed_payload_rejected (st : BotState) (qd : String) (mcid : Int)
    (hbad : (split_colon qd).length ≠ 3) :
    (taken_button st qd mcid).1 = st ∧
    (∀ cid, cid ≠ 0 → resolved st = some cid →
      (taken_button st qd mcid).2 = Reply.buttonDataError) := by
  have key : ∀ cid : Int, (cid == 0) = false → resolved st = some cid →
      taken_button st qd mcid = (st, Reply.buttonDataError) := by
    intro cid hcb hres
    unfold taken_button
    rw [hres]
    simp only [hcb, Bool.false_eq_true, if_false]
    rcases hl : split_colon qd with _ | ⟨x, _ | ⟨y, _ | ⟨z, _ | ⟨w, tl⟩⟩⟩⟩
    · rfl
    · rfl
    · rfl
    · exact absurd (by rw [hl]; rfl) hbad
    · rfl
  constructor
  · cases hres : resolved st with
    | none =>
      unfold taken_button
      rw [hres]
    | some cid =>
      cases hcb : cid == 0 with
      | true =>
        unfold taken_button
        rw [hres]
        simp [hcb]
      | false => rw [key cid hcb hres]
  · intro cid hcid hres
    have hcb : (cid == 0) = false := by simpa using hcid
    rw [key cid hcb hres]

theorem malformed_payload_rejected_witness :
    (taken_button ⟨none, some 42, [], []⟩ "garbage" 42).1 = ⟨none, some 42, [], []⟩ ∧
    (taken_button ⟨none, some 42, [], []⟩ "garbage" 42).2 = Reply.buttonDataError :=
  ⟨(malformed_payload_rejected ⟨none, some 42, [], []⟩ "garbage" 42 (by decide)).1,
   (malformed_payload_rejected ⟨none, some 42, [], []⟩ "garbage" 42 (by decide)).2
     42 (by decide) rfl⟩

/-- C9: a nag firing sends its follow-up to the recipient resolved at firing
time (linked, nonzero), not to the identity embedded in the job's
composite key: whatever chat id the job name carries, the appended message
targets the currently resolved chat, and the queue is left unchanged. -/
theorem nag_sends_to_resolved_recipient (st : BotState) (j : Job) (cid oldCid : Int)
    (hres : resolved st = some cid)
    (hcid : cid ≠ 0)
    (_hname : j.name = nag_job_name oldCid j.slot j.date_key) :
    nag_medicine st j =
      { st with
        sent := st.sent ++ [⟨cid, some (taken_callback_data j.slot j.date_key)⟩] } := by
  have hcb : (cid == 0) = false := by simpa using hcid
  unfold nag_medicine
  rw [hres]
  simp only [hcb, Bool.false_eq_true, if_false]

theorem nag_sends_to_resolved_recipient_witness :
    nag_medicine
        ⟨none, some 99,
         [⟨nag_job_name 42 "morning" "2024-01-01", "morning", "2024-01-01", 30, 690⟩], []⟩
        ⟨nag_job_name 42 "morning" "2024-01-01", "morning", "2024-01-01", 30, 690⟩ =
      ⟨none, some 99,
       [⟨nag_job_name 42 "morning" "2024-01-01", "morning", "2024-01-01", 30, 690⟩],
       [] ++ [⟨99, some (taken_callback_data "morning" "2024-01-01")⟩]⟩ :=
  nag_sends_to_resolved_recipient
    ⟨none, some 99,
     [⟨nag_job_name 42 "morning" "2024-01-01", "morning", "2024-01-01", 30, 690⟩], []⟩
    ⟨nag_job_name 42 "morning" "2024-01-01", "morning", "2024-01-01", 30, 690⟩
    99 42 rfl (by decide) rfl

/-- C10: the handler never checks the slot field against the defined slots:
any three-field payload from the authorized chat of a linked (nonzero)
recipient is acknowledged as a successful confirmation, even with an
undefined slot — the cancel lookup then finds no job under the made-up
key, removes zero, and leaves the state unchanged. -/
theorem slot_field_not_validated (st : BotState) (qd a s d : String) (cid : Int)
    (hres : resolved st = some cid)
    (hcid : cid ≠ 0)
    (hparse : split_colon qd = [a, s, d])
    (hnojob : ∀ j ∈ st.jobs, j.name ≠ nag_job_name cid s d) :
    taken_button st qd cid = (st, Reply.confirmed (slot_label s) true) := by
  have hcb : (cid == 0) = false := by simpa using hcid
  unfold taken_button
  rw [hres]
  simp only [hcb, Bool.false_eq_true, if_false]
  rw [hparse]
  simp [stop_nagging_no_match st.jobs cid s d hnojob]

theorem slot_field_not_validated_witness :
    taken_button ⟨none, some 42, [], []⟩ "taken:vitamins:2024-01-01" 42 =
      (⟨none, some 42, [], []⟩, Reply.confirmed (slot_label "vitamins") true) :=
  slot_field_not_validated ⟨none, some 42, [], []⟩ "taken:vitamins:2024-01-01"
    "taken" "vitamins" "2024-01-01" 42 rfl (by decide) (by decide) (by simp)

end Claims

end Medicynbot
